import Mathlib

/-! Shallow embedding of `src/worker_spark.c`, a PostgreSQL background worker
that wakes up every `worker_spark.naptime` seconds and, inside a fresh
transaction, checks the catalog for a function named
`worker_spark.procedure` in schema `worker_spark.schema`, invoking it if
present.

The embedding models:
- the GUC configuration (`Config`, the four `worker_spark.*` variables);
- the signal-handler globals `got_sighup` / `got_sigterm`, the process
  latch and `errno` (`ProcState`), with the two handlers
  `worker_spark_sigterm` / `worker_spark_sighup` translated line by line;
- one iteration of the main loop (`stepIter`), instrumented with an event
  trace recording every host/SPI interaction the C code performs, in
  source order;
- the whole loop (`run`) as iteration of `stepIter` over a list of
  per-cycle environments (`CycleEnv`), each environment supplying the
  nondeterministic inputs of that cycle: the `WaitLatch` result bits,
  signals delivered while blocked in the wait, the configuration that
  `ProcessConfigFile` would install, and the SPI responses of the external
  database (`Db`).

The database is external to the repository; `stdDb` models standard
PostgreSQL SPI semantics, where a `SELECT` that completes returns
`SPI_OK_SELECT` and the catalog lookup counts matches of
(schema, procedure) in `pg_proc`/`pg_namespace`.
-/

namespace WorkerSpark

/-- SPI return code for a completed SELECT (`SPI_OK_SELECT` in
`executor/spi.h`). -/
def SPI_OK_SELECT : Int := 5

/-- Wait-event bit `WL_LATCH_SET` from `storage/latch.h`. -/
def WL_LATCH_SET : Nat := 1

/-- Wait-event bit `WL_TIMEOUT` from `storage/latch.h`. -/
def WL_TIMEOUT : Nat := 8

/-- Wait-event bit `WL_POSTMASTER_DEATH` from `storage/latch.h`. -/
def WL_POSTMASTER_DEATH : Nat := 16

/-- The four GUC variables of the worker: `worker_spark_naptime`,
`worker_spark_database`, `worker_spark_schema`,
`worker_spark_procedure`. -/
structure Config where
  naptime : Nat
  database : String
  schema : String
  procedure : String
deriving Repr, DecidableEq

/-- Result of one `SPI_execute` call: the return code `ret` and the
global `SPI_processed` row count it leaves behind. -/
structure SpiResult where
  ret : Int
  processed : Nat
deriving Repr, DecidableEq

/-- Process-local state of the worker: the active GUC configuration, the
two `volatile sig_atomic_t` flags set by the signal handlers, the process
latch (`MyProc->procLatch`) and the C `errno` of the main context. -/
structure ProcState where
  config : Config
  got_sighup : Bool
  got_sigterm : Bool
  latch : Bool
  errno : Int
deriving Repr, DecidableEq

/-- Model of `SetLatch(&MyProc->procLatch)`: sets the latch.  As a
primitive that may perform a system call (writing the self-pipe), it can
leave `errno` holding an arbitrary value `e` of the interrupted
context. -/
def SetLatch (e : Int) (s : ProcState) : ProcState :=
  { s with latch := true, errno := e }

/-- Translation of `worker_spark_sigterm` (src/worker_spark.c:64-74):
save `errno`, set `got_sigterm`, set the latch when `MyProc` is
non-NULL, restore `errno`. -/
def worker_spark_sigterm (hasMyProc : Bool) (setLatchErrno : Int)
    (s : ProcState) : ProcState :=
  let save_errno := s.errno
  let s1 := { s with got_sigterm := true }
  let s2 := if hasMyProc then SetLatch setLatchErrno s1 else s1
  { s2 with errno := save_errno }

/-- Translation of `worker_spark_sighup` (src/worker_spark.c:81-87):
set `got_sighup` and set the latch when `MyProc` is non-NULL.  Unlike
the SIGTERM handler it does not save and restore `errno`. -/
def worker_spark_sighup (hasMyProc : Bool) (setLatchErrno : Int)
    (s : ProcState) : ProcState :=
  let s1 := { s with got_sighup := true }
  if hasMyProc then SetLatch setLatchErrno s1 else s1

/-- The catalog-existence query built at src/worker_spark.c:162-170 by
`appendStringInfo`, with the schema and procedure strings interpolated
verbatim. -/
def lookupQuery (c : Config) : String :=
  "SELECT 1 FROM pg_proc p JOIN pg_namespace n ON p.pronamespace = n.oid WHERE n.nspname = \x27"
    ++ c.schema ++ "\x27 AND p.proname = \x27" ++ c.procedure
    ++ "\x27 LIMIT 1"

/-- The invocation query built at src/worker_spark.c:179-182:
`SELECT schema.procedure()` — a call with no arguments. -/
def invokeQuery (c : Config) : String :=
  "SELECT " ++ c.schema ++ "." ++ c.procedure ++ "()"

/-- Observable events of one loop, in the order the C code performs
them.  `lookupExec` and `invokeExec` are the two `SPI_execute` call
sites (catalog lookup at line 173, invocation at line 184), each
recording the query string actually issued. -/
inductive Event where
  | waitLatch (wakeEvents : Nat) (timeoutMs : Nat)
  | resetLatch
  | reloadConfig
  | setStatementStart
  | startTransaction
  | spiConnect
  | pushSnapshot
  | reportRunning
  | lookupExec (query : String)
  | invokeExec (query : String)
  | elogFatal (code : Int)
  | spiFinish
  | popSnapshot
  | commitTransaction
  | reportIdle
  | procExit (code : Nat)
deriving Repr, DecidableEq

/-- Recognizer for invocation events (the `SPI_execute` at line 184). -/
def Event.isInvoke : Event → Bool
  | .invokeExec _ => true
  | _ => false

/-- Recognizer for catalog-lookup events (the `SPI_execute` at
line 173). -/
def Event.isLookup : Event → Bool
  | .lookupExec _ => true
  | _ => false

/-- Recognizer for `StartTransactionCommand` events. -/
def Event.isStartTx : Event → Bool
  | .startTransaction => true
  | _ => false

/-- Recognizer for `WaitLatch` events. -/
def Event.isWait : Event → Bool
  | .waitLatch _ _ => true
  | _ => false

/-- The external database as seen through `SPI_execute`: its response to
the catalog lookup query and to the invocation query, each as a function
of the configuration whose fields were formatted into the query. -/
structure Db where
  lookup : Config → SpiResult
  invoke : Config → SpiResult

/-- Nondeterministic inputs of one loop iteration: the bitmask returned
by `WaitLatch`, which signals are delivered while the process is blocked
in the wait (handlers run then), whether `MyProc` is set and the `errno`
value `SetLatch` leaves, the configuration `ProcessConfigFile` would
install, and the database responses. -/
structure CycleEnv where
  waitResult : Nat
  sigtermDuringWait : Bool
  sighupDuringWait : Bool
  hasMyProc : Bool
  handlerErrno : Int
  reloaded : Config
  db : Db

/-- Outcome of one pass through the `while` loop: continue with a new
state, exit the process via `proc_exit`, or die by `elog(FATAL, ...)`;
each outcome carries the event trace of the pass. -/
inductive StepResult where
  | next (s : ProcState) (trace : List Event)
  | exited (code : Nat) (trace : List Event)
  | fatal (code : Int) (trace : List Event)
deriving DecidableEq

/-- Trace component of a `StepResult`. -/
def StepResult.trace : StepResult → List Event
  | .next _ tr => tr
  | .exited _ tr => tr
  | .fatal _ tr => tr

/-- The tail of every committed cycle (src/worker_spark.c:200-203):
`SPI_finish`, `PopActiveSnapshot`, `CommitTransactionCommand`,
`pgstat_report_activity(STATE_IDLE, NULL)`. -/
def commitSeq : List Event :=
  [.spiFinish, .popSnapshot, .commitTransaction, .reportIdle]

/-- State of the worker once `WaitLatch` has returned and `ResetLatch`
has run: the handlers of the signals delivered while the process was
blocked in the wait have executed, and the latch is cleared again. -/
def afterWait (e : CycleEnv) (s : ProcState) : ProcState :=
  let s1 :=
    if e.sigtermDuringWait then
      worker_spark_sigterm e.hasMyProc e.handlerErrno s
    else s
  let s2 :=
    if e.sighupDuringWait then
      worker_spark_sighup e.hasMyProc e.handlerErrno s1
    else s1
  { s2 with latch := false }

/-- State of the worker after the `got_sighup` check at
src/worker_spark.c:133-137: when the flag is set it is cleared and
`ProcessConfigFile` installs the reloaded configuration. -/
def afterReload (e : CycleEnv) (s : ProcState) : ProcState :=
  if (afterWait e s).got_sighup then
    { afterWait e s with got_sighup := false, config := e.reloaded }
  else afterWait e s

/-- Trace of the cycle up to and including the reload check: the wait,
the latch reset, and the configuration reload when `got_sighup` was
found set. -/
def preTxTrace (e : CycleEnv) (s : ProcState) : List Event :=
  [.waitLatch (WL_LATCH_SET ||| WL_TIMEOUT ||| WL_POSTMASTER_DEATH)
     (s.config.naptime * 1000),
   .resetLatch] ++
  (if (afterWait e s).got_sighup then [Event.reloadConfig] else [])

/-- One pass through the main loop of `worker_spark_main`
(src/worker_spark.c:110-206), including the `while (!got_sigterm)`
condition test: if the flag is already set the loop ends and
`proc_exit(0)` runs; otherwise the body executes — `WaitLatch` with
`WL_LATCH_SET | WL_TIMEOUT | WL_POSTMASTER_DEATH` and timeout
`naptime * 1000` ms (signals delivered during the wait run their
handlers), `ResetLatch`, emergency `proc_exit(1)` on postmaster death,
configuration reload when `got_sighup`, then the transaction-scoped
catalog lookup and optional invocation, with `elog(FATAL, ...)` whenever
an `SPI_execute` returns anything other than `SPI_OK_SELECT`. -/
def stepIter (e : CycleEnv) (s : ProcState) : StepResult :=
  if s.got_sigterm then
    .exited 0 [.procExit 0]
  else if e.waitResult &&& WL_POSTMASTER_DEATH ≠ 0 then
    .exited 1
      [.waitLatch (WL_LATCH_SET ||| WL_TIMEOUT ||| WL_POSTMASTER_DEATH)
         (s.config.naptime * 1000),
       .resetLatch, .procExit 1]
  else
    let s4 := afterReload e s
    let tr2 := preTxTrace e s ++
      [Event.setStatementStart, Event.startTransaction, Event.spiConnect,
       Event.pushSnapshot, Event.reportRunning]
    let lookupRes := e.db.lookup s4.config
    let tr3 := tr2 ++ [Event.lookupExec (lookupQuery s4.config)]
    if lookupRes.ret ≠ SPI_OK_SELECT then
      .fatal lookupRes.ret (tr3 ++ [.elogFatal lookupRes.ret])
    else if lookupRes.processed > 0 then
      let invokeRes := e.db.invoke s4.config
      let tr4 := tr3 ++ [Event.invokeExec (invokeQuery s4.config)]
      if invokeRes.ret ≠ SPI_OK_SELECT then
        .fatal invokeRes.ret (tr4 ++ [.elogFatal invokeRes.ret])
      else
        .next s4 (tr4 ++ commitSeq)
    else
      .next s4 (tr3 ++ commitSeq)

/-- Outcome of running the loop through a finite list of cycle
environments: still looping, exited via `proc_exit`, or dead by
`elog(FATAL, ...)`. -/
inductive RunResult where
  | running (s : ProcState)
  | exited (code : Nat)
  | fatal (code : Int)
deriving Repr, DecidableEq

/-- Iterate `stepIter` over a list of per-cycle environments,
concatenating traces; a terminal step (`proc_exit` or FATAL) discards
the remaining environments, since the process is gone. -/
def run (envs : List CycleEnv) (s : ProcState) : RunResult × List Event :=
  match envs with
  | [] => (.running s, [])
  | e :: rest =>
    match stepIter e s with
    | .next s2 tr =>
      let (r, tr2) := run rest s2
      (r, tr ++ tr2)
    | .exited c tr => (.exited c, tr)
    | .fatal c tr => (.fatal c, tr)

/-- Model of the external catalog as the set of (schema name, function
name) pairs present in `pg_proc` joined with `pg_namespace`. -/
abbrev Catalog := List (String × String)

/-- Standard SPI semantics of the two queries the worker issues: both
are SELECT statements, so a completed execution returns `SPI_OK_SELECT`;
the lookup yields one row when (schema, procedure) is in the catalog and
none otherwise (`LIMIT 1`), and the invocation of a function by `SELECT`
yields one row whose value is discarded. -/
def stdDb (cat : Catalog) : Db where
  lookup := fun c =>
    ⟨SPI_OK_SELECT, if (c.schema, c.procedure) ∈ cat then 1 else 0⟩
  invoke := fun _ => ⟨SPI_OK_SELECT, 1⟩

/-- A sample configuration matching the documented example: naptime 10,
procedure `spark_fn` in schema `public`. -/
def cfg0 : Config :=
  { naptime := 10, database := "mydb", schema := "public",
    procedure := "spark_fn" }

/-- A second configuration, as installed by a reload. -/
def cfgAlt : Config :=
  { naptime := 3, database := "mydb", schema := "sched",
    procedure := "other_fn" }

/-- Initial worker state: no pending signal, latch unset, errno 0. -/
def s0 : ProcState :=
  { config := cfg0, got_sighup := false, got_sigterm := false,
    latch := false, errno := 0 }

/-- A cycle in which the wait simply times out and no signal arrives,
against the standard database semantics over catalog `cat`. -/
def quietEnv (cat : Catalog) : CycleEnv :=
  { waitResult := WL_TIMEOUT, sigtermDuringWait := false,
    sighupDuringWait := false, hasMyProc := true, handlerErrno := 0,
    reloaded := cfg0, db := stdDb cat }

/-- A database stub whose responses carry result class `SPI_OK_UTILITY`
(code 8) instead of `SPI_OK_SELECT` — the "unexpected result class"
scenario. -/
def badDb : Db where
  lookup := fun _ => ⟨8, 0⟩
  invoke := fun _ => ⟨8, 0⟩

/-- A quiet timeout cycle against the misbehaving database stub. -/
def badEnv : CycleEnv := { quietEnv [] with db := badDb }

/-- The event trace of a committed cycle: the pre-transaction part,
the transaction setup, the catalog lookup, the invocation when the
lookup reported a match, and the commit sequence. -/
def nextTrace (e : CycleEnv) (s : ProcState) : List Event :=
  preTxTrace e s ++
  [.setStatementStart, .startTransaction, .spiConnect, .pushSnapshot,
   .reportRunning, .lookupExec (lookupQuery (afterReload e s).config)] ++
  (if 0 < (e.db.lookup (afterReload e s).config).processed then
    [Event.invokeExec (invokeQuery (afterReload e s).config)]
  else []) ++
  commitSeq

/-- One step of the transaction-protocol scanner.  The `Nat` tracks the
worker's position inside the transaction protocol of one cycle: 0 = no
transaction scope exists, 1 = transaction started, 2 = SPI connected,
3 = snapshot pushed (queries may run), 4 = SPI finished, 5 = snapshot
popped; `commitTransaction` closes the scope back to 0.  `none` means
the event sequence violated the protocol — e.g. a wait or a second
`startTransaction` while a scope is open. -/
def txStep : Option Nat → Event → Option Nat
  | none, _ => none
  | some d, ev =>
    match ev with
    | .waitLatch _ _ => if d = 0 then some 0 else none
    | .resetLatch => if d = 0 then some 0 else none
    | .reloadConfig => if d = 0 then some 0 else none
    | .setStatementStart => if d = 0 then some 0 else none
    | .startTransaction => if d = 0 then some 1 else none
    | .spiConnect => if d = 1 then some 2 else none
    | .pushSnapshot => if d = 2 then some 3 else none
    | .reportRunning => if d = 3 then some 3 else none
    | .lookupExec _ => if d = 3 then some 3 else none
    | .invokeExec _ => if d = 3 then some 3 else none
    | .elogFatal _ => if d = 3 then some 3 else none
    | .spiFinish => if d = 3 then some 4 else none
    | .popSnapshot => if d = 4 then some 5 else none
    | .commitTransaction => if d = 5 then some 0 else none
    | .reportIdle => if d = 0 then some 0 else none
    | .procExit _ => if d = 0 then some 0 else none

/-- Scan a trace with `txStep`, starting from protocol position `d`. -/
def txScan (tr : List Event) (d : Option Nat) : Option Nat :=
  tr.foldl txStep d

/-- Worker state whose configuration holds an empty schema and a
garbage procedure name. -/
def sGarbage : ProcState :=
  { s0 with
    config := { cfg0 with schema := "", procedure := "no such fn" } }

/-- A cycle in which a SIGTERM is delivered while the worker is blocked
in `WaitLatch`, waking it through the latch. -/
def sigtermEnv : CycleEnv :=
  { quietEnv [] with
    waitResult := WL_LATCH_SET,
    sigtermDuringWait := true }

/-- A cycle in which a SIGHUP is delivered while the worker is blocked
in `WaitLatch`, and the subsequent `ProcessConfigFile` installs
`cfgAlt`. -/
def reloadEnv : CycleEnv :=
  { quietEnv [] with
    waitResult := WL_LATCH_SET,
    sighupDuringWait := true,
    reloaded := cfgAlt }

/-- The SIGTERM handler does not touch the configuration. -/
@[simp] theorem sigterm_handler_config (p : Bool) (err : Int)
    (s : ProcState) : (worker_spark_sigterm p err s).config = s.config := by
  cases p <;> rfl

/-- The SIGTERM handler does not touch `got_sighup`. -/
@[simp] theorem sigterm_handler_got_sighup (p : Bool) (err : Int)
    (s : ProcState) :
    (worker_spark_sigterm p err s).got_sighup = s.got_sighup := by
  cases p <;> rfl

/-- The SIGTERM handler sets `got_sigterm`. -/
@[simp] theorem sigterm_handler_got_sigterm (p : Bool) (err : Int)
    (s : ProcState) : (worker_spark_sigterm p err s).got_sigterm = true := by
  cases p <;> rfl

/-- The SIGTERM handler restores `errno`. -/
@[simp] theorem sigterm_handler_errno (p : Bool) (err : Int)
    (s : ProcState) : (worker_spark_sigterm p err s).errno = s.errno := by
  cases p <;> rfl

/-- The SIGHUP handler does not touch the configuration. -/
@[simp] theorem sighup_handler_config (p : Bool) (err : Int)
    (s : ProcState) : (worker_spark_sighup p err s).config = s.config := by
  cases p <;> rfl

/-- The SIGHUP handler sets `got_sighup`. -/
@[simp] theorem sighup_handler_got_sighup (p : Bool) (err : Int)
    (s : ProcState) : (worker_spark_sighup p err s).got_sighup = true := by
  cases p <;> rfl

/-- The SIGHUP handler does not touch `got_sigterm`. -/
@[simp] theorem sighup_handler_got_sigterm (p : Bool) (err : Int)
    (s : ProcState) :
    (worker_spark_sighup p err s).got_sigterm = s.got_sigterm := by
  cases p <;> rfl

/-- Signal delivery during the wait does not change the
configuration. -/
@[simp] theorem afterWait_config (e : CycleEnv) (s : ProcState) :
    (afterWait e s).config = s.config := by
  cases h1 : e.sigtermDuringWait <;> cases h2 : e.sighupDuringWait <;>
    simp [afterWait, h1, h2]

/-- After the wait, `got_sigterm` holds exactly when it held before or
a SIGTERM was delivered during the wait. -/
@[simp] theorem afterWait_got_sigterm (e : CycleEnv) (s : ProcState) :
    (afterWait e s).got_sigterm = (s.got_sigterm || e.sigtermDuringWait)
    := by
  cases h1 : e.sigtermDuringWait <;> cases h2 : e.sighupDuringWait <;>
    simp [afterWait, h1, h2]

/-- After the wait, `got_sighup` holds exactly when it held before or a
SIGHUP was delivered during the wait. -/
@[simp] theorem afterWait_got_sighup (e : CycleEnv) (s : ProcState) :
    (afterWait e s).got_sighup = (s.got_sighup || e.sighupDuringWait)
    := by
  cases h1 : e.sigtermDuringWait <;> cases h2 : e.sighupDuringWait <;>
    simp [afterWait, h1, h2]

/-- The reload check always leaves `got_sighup` clear. -/
@[simp] theorem afterReload_got_sighup (e : CycleEnv) (s : ProcState) :
    (afterReload e s).got_sighup = false := by
  by_cases h1 : s.got_sighup = true <;>
    by_cases h2 : e.sighupDuringWait = true <;>
    simp [afterReload, h1, h2]

/-- The reload check does not touch `got_sigterm`. -/
@[simp] theorem afterReload_got_sigterm (e : CycleEnv) (s : ProcState) :
    (afterReload e s).got_sigterm = (s.got_sigterm || e.sigtermDuringWait)
    := by
  by_cases h1 : s.got_sighup = true <;>
    by_cases h2 : e.sighupDuringWait = true <;>
    simp [afterReload, h1, h2]

/-- The configuration in force during the Executing phase: the reloaded
one when `got_sighup` was found set, the previous one otherwise. -/
theorem afterReload_config (e : CycleEnv) (s : ProcState) :
    (afterReload e s).config =
      if s.got_sighup || e.sighupDuringWait then e.reloaded
      else s.config := by
  by_cases h : (afterWait e s).got_sighup = true <;>
    simp_all [afterReload]

/-- When no reload is pending, the Executing phase runs under the
unchanged configuration. -/
@[simp] theorem afterReload_config_of_no_sighup (e : CycleEnv)
    (s : ProcState) (hhup : s.got_sighup = false)
    (hhupw : e.sighupDuringWait = false) :
    (afterReload e s).config = s.config := by
  simp [afterReload_config, hhup, hhupw]

/-- The state after the wait does not depend on the database. -/
theorem afterWait_db_irrel (e : CycleEnv) (d : Db) (s : ProcState) :
    afterWait { e with db := d } s = afterWait e s := rfl

/-- The state after the reload check does not depend on the
database. -/
theorem afterReload_db_irrel (e : CycleEnv) (d : Db) (s : ProcState) :
    afterReload { e with db := d } s = afterReload e s := rfl

/-- The pre-transaction trace does not depend on the database. -/
theorem preTxTrace_db_irrel (e : CycleEnv) (d : Db) (s : ProcState) :
    preTxTrace { e with db := d } s = preTxTrace e s := rfl

/-- When the `WaitLatch` result does not report postmaster death and
both SPI responses for the configuration in force have result class
`SPI_OK_SELECT`, the cycle commits: it ends in `.next` with the state
after the reload check and the committed-cycle trace. -/
theorem stepIter_ok_next (e : CycleEnv) (s : ProcState)
    (hterm : s.got_sigterm = false)
    (hpm : e.waitResult &&& WL_POSTMASTER_DEATH = 0)
    (hl : (e.db.lookup (afterReload e s).config).ret = SPI_OK_SELECT)
    (hi : (e.db.invoke (afterReload e s).config).ret = SPI_OK_SELECT) :
    stepIter e s = .next (afterReload e s) (nextTrace e s) := by
  by_cases hp : 0 < (e.db.lookup (afterReload e s).config).processed <;>
    simp [stepIter, nextTrace, hterm, hpm, hl, hi, hp]

/-- Every committed cycle performs exactly one timed wait. -/
theorem nextTrace_one_wait (e : CycleEnv) (s : ProcState) :
    (nextTrace e s).countP Event.isWait = 1 := by
  by_cases hp : 0 < (e.db.lookup (afterReload e s).config).processed <;>
    by_cases hh : (afterWait e s).got_sighup = true <;>
    simp [nextTrace, preTxTrace, commitSeq, Event.isWait, hp, hh]

/-- Every committed cycle starts exactly one transaction. -/
theorem nextTrace_one_startTx (e : CycleEnv) (s : ProcState) :
    (nextTrace e s).countP Event.isStartTx = 1 := by
  by_cases hp : 0 < (e.db.lookup (afterReload e s).config).processed <;>
    by_cases hh : (afterWait e s).got_sighup = true <;>
    simp [nextTrace, preTxTrace, commitSeq, Event.isStartTx, hp, hh]

/-- C7: if `WaitLatch` reports postmaster death, the worker exits
immediately with status 1: the cycle trace is exactly the wait, the
latch reset and `proc_exit(1)` — no transaction is started and no
transaction-cleanup event occurs in that cycle. -/
theorem postmaster_death_immediate_exit (e : CycleEnv) (s : ProcState)
    (hterm : s.got_sigterm = false)
    (hpm : e.waitResult &&& WL_POSTMASTER_DEATH ≠ 0) :
    stepIter e s =
      .exited 1
        [.waitLatch (WL_LATCH_SET ||| WL_TIMEOUT ||| WL_POSTMASTER_DEATH)
           (s.config.naptime * 1000),
         .resetLatch, .procExit 1] := by
  simp [stepIter, hterm, hpm]

/-- Closed witness for `postmaster_death_immediate_exit` at a concrete
state and environment. -/
theorem postmaster_death_immediate_exit_witness :
    stepIter { quietEnv [] with waitResult := WL_POSTMASTER_DEATH } s0 =
      .exited 1
        [.waitLatch (WL_LATCH_SET ||| WL_TIMEOUT ||| WL_POSTMASTER_DEATH)
           (s0.config.naptime * 1000),
         .resetLatch, .procExit 1] :=
  postmaster_death_immediate_exit _ _ rfl (by decide)

/-- C8: every cycle that actually runs (shutdown flag not yet set)
enters the timed wait first, and that wait is called with wake causes
`WL_LATCH_SET | WL_TIMEOUT | WL_POSTMASTER_DEATH` and a timeout of
exactly `naptime * 1000` milliseconds. -/
theorem waiting_phase_timeout_and_causes (e : CycleEnv) (s : ProcState)
    (hterm : s.got_sigterm = false) :
    (stepIter e s).trace.head? =
      some (.waitLatch (WL_LATCH_SET ||| WL_TIMEOUT ||| WL_POSTMASTER_DEATH)
        (s.config.naptime * 1000)) := by
  simp only [stepIter, hterm, Bool.false_eq_true, if_false]
  repeat' split
  all_goals simp [StepResult.trace, preTxTrace]

/-- Closed witness for `waiting_phase_timeout_and_causes`: with
naptime 10 the wait is entered with a 10000 ms timeout. -/
theorem waiting_phase_timeout_and_causes_witness :
    (stepIter (quietEnv []) s0).trace.head? =
      some (.waitLatch (WL_LATCH_SET ||| WL_TIMEOUT ||| WL_POSTMASTER_DEATH)
        10000) :=
  waiting_phase_timeout_and_causes (quietEnv []) s0 rfl

/-- C4: when the catalog lookup succeeds and reports at least one
matching row, the cycle performs exactly one invocation; the query it
issues is `SELECT schema.procedure()` — a call with no arguments — and
the rows the invocation returns are discarded: nothing in the cycle's
outcome depends on them. -/
theorem match_found_invokes_once (e : CycleEnv) (s : ProcState)
    (hterm : s.got_sigterm = false) (hhup : s.got_sighup = false)
    (hhupw : e.sighupDuringWait = false)
    (hpm : e.waitResult &&& WL_POSTMASTER_DEATH = 0)
    (hret : (e.db.lookup s.config).ret = SPI_OK_SELECT)
    (hrows : 0 < (e.db.lookup s.config).processed)
    (hcall : (e.db.invoke s.config).ret = SPI_OK_SELECT) :
    (stepIter e s).trace.countP Event.isInvoke = 1 ∧
    Event.invokeExec (invokeQuery s.config) ∈ (stepIter e s).trace ∧
    invokeQuery s.config =
      "SELECT " ++ s.config.schema ++ "." ++ s.config.procedure ++ "()" ∧
    (∀ db2 : Db, db2.lookup = e.db.lookup →
      (∀ c, (db2.invoke c).ret = (e.db.invoke c).ret) →
      stepIter { e with db := db2 } s = stepIter e s) := by
  have hcfg : (afterReload e s).config = s.config :=
    afterReload_config_of_no_sighup e s hhup hhupw
  refine ⟨?_, ?_, rfl, ?_⟩
  · cases hsig : e.sigtermDuringWait <;>
      simp [stepIter, hterm, hhup, hhupw, hsig, hpm, hret, hrows, hcall,
        StepResult.trace, commitSeq, preTxTrace, Event.isInvoke,
        invokeQuery]
  · cases hsig : e.sigtermDuringWait <;>
      simp [stepIter, hterm, hhup, hhupw, hsig, hpm, hret, hrows, hcall,
        StepResult.trace, commitSeq, preTxTrace, Event.isInvoke,
        invokeQuery]
  · intro db2 hL hI
    have hB : stepIter e s = .next (afterReload e s) (nextTrace e s) :=
      stepIter_ok_next e s hterm hpm (by rw [hcfg]; exact hret)
        (by rw [hcfg]; exact hcall)
    have hA : stepIter { e with db := db2 } s =
        .next (afterReload { e with db := db2 } s)
          (nextTrace { e with db := db2 } s) :=
      stepIter_ok_next _ _ hterm hpm
        (by show (db2.lookup (afterReload e s).config).ret = SPI_OK_SELECT
            rw [hL, hcfg]; exact hret)
        (by show (db2.invoke (afterReload e s).config).ret = SPI_OK_SELECT
            rw [hI, hcfg]; exact hcall)
    have htr : nextTrace { e with db := db2 } s = nextTrace e s := by
      simp [nextTrace, hL, preTxTrace_db_irrel, afterReload_db_irrel]
    have hst : afterReload { e with db := db2 } s = afterReload e s :=
      afterReload_db_irrel e db2 s
    rw [hA, hB, htr, hst]

/-- Closed witness for `match_found_invokes_once`: with `spark_fn` in
schema `public` in the catalog, one wake invokes it once. -/
theorem match_found_invokes_once_witness :
    (stepIter (quietEnv [("public", "spark_fn")]) s0).trace.countP
        Event.isInvoke = 1 ∧
    Event.invokeExec (invokeQuery s0.config) ∈
      (stepIter (quietEnv [("public", "spark_fn")]) s0).trace ∧
    invokeQuery s0.config =
      "SELECT " ++ s0.config.schema ++ "." ++ s0.config.procedure
        ++ "()" ∧
    (∀ db2 : Db,
      db2.lookup = (quietEnv [("public", "spark_fn")]).db.lookup →
      (∀ c, (db2.invoke c).ret =
        ((quietEnv [("public", "spark_fn")]).db.invoke c).ret) →
      stepIter { quietEnv [("public", "spark_fn")] with db := db2 } s0 =
        stepIter (quietEnv [("public", "spark_fn")]) s0) :=
  match_found_invokes_once _ _ rfl rfl rfl (by decide) (by decide)
    (by decide) (by decide)

/-- C5: when the catalog lookup succeeds and reports no matching row,
the cycle performs zero invocations, raises no error, and ends with the
normal commit sequence, continuing to the next Waiting phase with the
configuration unchanged. -/
theorem no_match_is_silent (e : CycleEnv) (s : ProcState)
    (hterm : s.got_sigterm = false) (hhup : s.got_sighup = false)
    (hhupw : e.sighupDuringWait = false)
    (hpm : e.waitResult &&& WL_POSTMASTER_DEATH = 0)
    (hret : (e.db.lookup s.config).ret = SPI_OK_SELECT)
    (hrows : (e.db.lookup s.config).processed = 0) :
    ∃ s2, stepIter e s =
      .next s2
        ([.waitLatch (WL_LATCH_SET ||| WL_TIMEOUT ||| WL_POSTMASTER_DEATH)
            (s.config.naptime * 1000),
          .resetLatch, .setStatementStart, .startTransaction, .spiConnect,
          .pushSnapshot, .reportRunning,
          .lookupExec (lookupQuery s.config)] ++ commitSeq) ∧
      s2.config = s.config := by
  refine ⟨afterReload e s, ?_, ?_⟩
  · simp [stepIter, hterm, hhup, hhupw, hpm, hret, hrows, commitSeq,
      preTxTrace]
  · simp [afterReload_config, hhup, hhupw]

/-- Closed witness for `no_match_is_silent`: with an empty catalog,
one wake of the sample configuration commits without invoking. -/
theorem no_match_is_silent_witness :
    ∃ s2, stepIter (quietEnv []) s0 =
      .next s2
        ([.waitLatch (WL_LATCH_SET ||| WL_TIMEOUT ||| WL_POSTMASTER_DEATH)
            (s0.config.naptime * 1000),
          .resetLatch, .setStatementStart, .startTransaction, .spiConnect,
          .pushSnapshot, .reportRunning,
          .lookupExec (lookupQuery s0.config)] ++ commitSeq) ∧
      s2.config = s0.config :=
  no_match_is_silent _ _ rfl rfl rfl (by decide) (by decide) (by decide)

/-- When both SPI call sites report `SPI_OK_SELECT`, no cycle ends in
`elog(FATAL, ...)`. -/
theorem stepIter_no_fatal (e : CycleEnv) (s : ProcState)
    (hl : ∀ c, (e.db.lookup c).ret = SPI_OK_SELECT)
    (hi : ∀ c, (e.db.invoke c).ret = SPI_OK_SELECT) :
    ∀ code tr, stepIter e s ≠ .fatal code tr := by
  intro code tr h
  simp only [stepIter] at h
  repeat' split at h
  all_goals simp_all [hl, hi]

/-- C2: against standard SPI semantics the fatal branch is unreachable
for every configuration, whatever strings its schema and procedure
hold; and a (schema, procedure) pair absent from the catalog — as empty
or garbage names always are — simply finds no match: the lookup reports
zero rows and the cycle performs zero invocations. -/
theorem garbage_names_are_harmless (cat : Catalog) (e : CycleEnv)
    (s : ProcState) (hdb : e.db = stdDb cat) :
    (∀ code tr, stepIter e s ≠ .fatal code tr) ∧
    ((s.config.schema, s.config.procedure) ∉ cat →
      s.got_sigterm = false → s.got_sighup = false →
      e.sighupDuringWait = false →
      (stepIter e s).trace.countP Event.isInvoke = 0) := by
  constructor
  · exact stepIter_no_fatal e s (fun c => by simp [hdb, stdDb])
      (fun c => by simp [hdb, stdDb])
  · intro hmem hterm hhup hhupw
    have hrows : (e.db.lookup s.config).processed = 0 := by
      simp [hdb, stdDb, hmem]
    have hret : (e.db.lookup s.config).ret = SPI_OK_SELECT := by
      simp [hdb, stdDb]
    by_cases hpm : e.waitResult &&& WL_POSTMASTER_DEATH = 0
    · simp [stepIter, hterm, hhup, hhupw, hpm, hret, hrows,
        StepResult.trace, commitSeq, preTxTrace, Event.isInvoke]
    · simp [stepIter, hterm, hpm, StepResult.trace, Event.isInvoke]

/-- Closed witness for `garbage_names_are_harmless`: empty schema and a
garbage procedure name against a catalog holding `public.spark_fn` —
the cycle is not fatal and invokes nothing. -/
theorem garbage_names_are_harmless_witness :
    stepIter (quietEnv [("public", "spark_fn")]) sGarbage ≠
      .fatal SPI_OK_SELECT [] ∧
    (stepIter (quietEnv [("public", "spark_fn")]) sGarbage).trace.countP
      Event.isInvoke = 0 :=
  ⟨(garbage_names_are_harmless [("public", "spark_fn")] _ _ rfl).1 _ _,
   (garbage_names_are_harmless [("public", "spark_fn")] _ _ rfl).2
     (by decide) rfl rfl rfl⟩

/-- C6: a result class other than `SPI_OK_SELECT` from the catalog
lookup, or from the invocation after a successful lookup, is fatal: the
cycle ends in `elog(FATAL, ...)` carrying the offending code, the
process dies there, and nothing is retried — whatever cycles would have
followed, the run ends at that point with no further events. -/
theorem unexpected_result_class_is_fatal (e : CycleEnv) (s : ProcState)
    (rest : List CycleEnv)
    (hterm : s.got_sigterm = false) (hhup : s.got_sighup = false)
    (hhupw : e.sighupDuringWait = false)
    (hpm : e.waitResult &&& WL_POSTMASTER_DEATH = 0)
    (hfail : (e.db.lookup s.config).ret ≠ SPI_OK_SELECT ∨
      ((e.db.lookup s.config).ret = SPI_OK_SELECT ∧
       0 < (e.db.lookup s.config).processed ∧
       (e.db.invoke s.config).ret ≠ SPI_OK_SELECT)) :
    ∃ code tr, code ≠ SPI_OK_SELECT ∧ stepIter e s = .fatal code tr ∧
      run (e :: rest) s = (.fatal code, tr) := by
  rcases hfail with hf | ⟨hret, hrows, hf⟩
  · have hstep : stepIter e s = .fatal (e.db.lookup s.config).ret
        (preTxTrace e s ++
         [Event.setStatementStart, Event.startTransaction,
          Event.spiConnect, Event.pushSnapshot, Event.reportRunning,
          Event.lookupExec (lookupQuery s.config),
          Event.elogFatal (e.db.lookup s.config).ret]) := by
      simp [stepIter, hterm, hhup, hhupw, hpm, hf]
    exact ⟨_, _, hf, hstep, by simp [run, hstep]⟩
  · have hstep : stepIter e s = .fatal (e.db.invoke s.config).ret
        (preTxTrace e s ++
         [Event.setStatementStart, Event.startTransaction,
          Event.spiConnect, Event.pushSnapshot, Event.reportRunning,
          Event.lookupExec (lookupQuery s.config),
          Event.invokeExec (invokeQuery s.config),
          Event.elogFatal (e.db.invoke s.config).ret]) := by
      simp [stepIter, hterm, hhup, hhupw, hpm, hret, hrows, hf]
    exact ⟨_, _, hf, hstep, by simp [run, hstep]⟩

/-- Closed witness for `unexpected_result_class_is_fatal`: a database
stub answering with result class 8 kills the worker on the first
cycle. -/
theorem unexpected_result_class_is_fatal_witness :
    ∃ code tr, code ≠ SPI_OK_SELECT ∧
      stepIter badEnv s0 = .fatal code tr ∧
      run [badEnv, quietEnv []] s0 = (.fatal code, tr) :=
  unexpected_result_class_is_fatal badEnv s0 [quietEnv []] rfl rfl rfl
    (by decide) (Or.inl (by decide))

/-- C10: the two signal handlers treat `errno` asymmetrically.  The
SIGTERM handler brackets its body with a save and restore of `errno`,
so the interrupted context's `errno` is always preserved, whatever
value `SetLatch` leaves behind; the SIGHUP handler has no such
bracketing, so a reload signal whose `SetLatch` touches `errno` leaves
it clobbered (here: 7 where the interrupted context had 0). -/
theorem handler_errno_asymmetry :
    (∀ (p : Bool) (err : Int) (s : ProcState),
      (worker_spark_sigterm p err s).errno = s.errno) ∧
    (worker_spark_sighup true 7 s0).errno ≠ s0.errno :=
  ⟨sigterm_handler_errno, by decide⟩

/-- C1 counterexample: a SIGTERM delivered while the worker is blocked
in the Waiting phase does not prevent a further Executing phase.  In a
concrete run where the shutdown flag is set during the wait of the
first cycle, the process does exit with status 0, but the trace before
that exit contains a `StartTransactionCommand` and a catalog lookup —
refuting "no further transaction is opened and no further catalog
lookup occurs". -/
theorem sigterm_during_wait_counterexample :
    (run [sigtermEnv, quietEnv []] s0).1 = RunResult.exited 0 ∧
    Event.startTransaction ∈ (run [sigtermEnv, quietEnv []] s0).2 ∧
    (run [sigtermEnv, quietEnv []] s0).2.countP Event.isLookup = 1 := by
  decide

/-- C1 amended: a SIGTERM received during the Waiting phase makes the
loop exit with success status within one wait-cycle — but the iteration
already woken first completes one full Executing phase (at most one
transaction and catalog lookup), because the flag is only rechecked at
the top of the loop; no second timed wait occurs before `proc_exit(0)`.
-/
theorem sigterm_exits_after_current_cycle (e1 e2 : CycleEnv)
    (s : ProcState)
    (hsig : e1.sigtermDuringWait = true)
    (hpm : e1.waitResult &&& WL_POSTMASTER_DEATH = 0)
    (hl : ∀ c, (e1.db.lookup c).ret = SPI_OK_SELECT)
    (hi : ∀ c, (e1.db.invoke c).ret = SPI_OK_SELECT) :
    (run [e1, e2] s).1 = RunResult.exited 0 ∧
    (run [e1, e2] s).2.countP Event.isWait ≤ 1 ∧
    (run [e1, e2] s).2.countP Event.isStartTx ≤ 1 := by
  by_cases hterm : s.got_sigterm = true
  · simp [run, stepIter, hterm, Event.isWait, Event.isStartTx]
  · rw [Bool.not_eq_true] at hterm
    have hstep : stepIter e1 s = .next (afterReload e1 s) (nextTrace e1 s) :=
      stepIter_ok_next e1 s hterm hpm (hl _) (hi _)
    have hstep2 : stepIter e2 (afterReload e1 s) = .exited 0 [.procExit 0] := by
      simp [stepIter, hsig]
    refine ⟨?_, ?_, ?_⟩ <;>
      simp [run, hstep, hstep2, nextTrace_one_wait, nextTrace_one_startTx,
        Event.isWait, Event.isStartTx]

/-- Closed witness for `sigterm_exits_after_current_cycle` at the
concrete SIGTERM-during-wait environment. -/
theorem sigterm_exits_after_current_cycle_witness :
    (run [sigtermEnv, quietEnv []] s0).1 = RunResult.exited 0 ∧
    (run [sigtermEnv, quietEnv []] s0).2.countP Event.isWait ≤ 1 ∧
    (run [sigtermEnv, quietEnv []] s0).2.countP Event.isStartTx ≤ 1 :=
  sigterm_exits_after_current_cycle sigtermEnv (quietEnv []) s0 rfl
    (by decide) (fun c => rfl) (fun c => rfl)

/-- C3 counterexample: in a concrete cycle where the reload flag is
found set and the reload installs a configuration with different
schema/procedure names, the catalog lookup of that same cycle already
uses the newly reloaded names — refuting "the catalog lookup and
invocation of that same cycle do not use the newly reloaded names". -/
theorem reload_same_cycle_counterexample :
    Event.reloadConfig ∈ (stepIter reloadEnv s0).trace ∧
    Event.lookupExec (lookupQuery cfgAlt) ∈ (stepIter reloadEnv s0).trace ∧
    Event.lookupExec (lookupQuery cfg0) ∉ (stepIter reloadEnv s0).trace := by
  decide

/-- C3 amended: a cycle that finds the reload flag set clears it and
reloads the configuration before proceeding, and the catalog lookup
(and any invocation) of that same cycle already use the newly reloaded
names; only the interval of the wait already in flight is unaffected —
the wait of this cycle was entered with the previous `naptime`, and the
new interval takes effect at the next Waiting phase because the
resulting state carries the reloaded configuration. -/
theorem reload_takes_effect_same_cycle (e : CycleEnv) (s : ProcState)
    (hterm : s.got_sigterm = false)
    (hhup : (s.got_sighup || e.sighupDuringWait) = true)
    (hpm : e.waitResult &&& WL_POSTMASTER_DEATH = 0)
    (hl : ∀ c, (e.db.lookup c).ret = SPI_OK_SELECT)
    (hi : ∀ c, (e.db.invoke c).ret = SPI_OK_SELECT) :
    stepIter e s = .next (afterReload e s) (nextTrace e s) ∧
    (afterReload e s).got_sighup = false ∧
    (afterReload e s).config = e.reloaded ∧
    (nextTrace e s).head? =
      some (.waitLatch (WL_LATCH_SET ||| WL_TIMEOUT ||| WL_POSTMASTER_DEATH)
        (s.config.naptime * 1000)) ∧
    Event.reloadConfig ∈ nextTrace e s ∧
    Event.lookupExec (lookupQuery e.reloaded) ∈ nextTrace e s := by
  have hcfg : (afterReload e s).config = e.reloaded := by
    simp [afterReload_config, hhup]
  refine ⟨stepIter_ok_next e s hterm hpm (hl _) (hi _),
    afterReload_got_sighup e s, hcfg, ?_, ?_, ?_⟩
  · simp [nextTrace, preTxTrace]
  · simp [nextTrace, preTxTrace, hhup]
  · simp [nextTrace, hcfg]

/-- Closed witness for `reload_takes_effect_same_cycle` at the concrete
SIGHUP-during-wait environment reloading `cfgAlt`. -/
theorem reload_takes_effect_same_cycle_witness :
    stepIter reloadEnv s0 =
      .next (afterReload reloadEnv s0) (nextTrace reloadEnv s0) ∧
    (afterReload reloadEnv s0).got_sighup = false ∧
    (afterReload reloadEnv s0).config = reloadEnv.reloaded ∧
    (nextTrace reloadEnv s0).head? =
      some (.waitLatch (WL_LATCH_SET ||| WL_TIMEOUT ||| WL_POSTMASTER_DEATH)
        (s0.config.naptime * 1000)) ∧
    Event.reloadConfig ∈ nextTrace reloadEnv s0 ∧
    Event.lookupExec (lookupQuery reloadEnv.reloaded) ∈
      nextTrace reloadEnv s0 :=
  reload_takes_effect_same_cycle reloadEnv s0 rfl rfl (by decide)
    (fun c => rfl) (fun c => rfl)

/-- A committed cycle's trace follows the transaction protocol and
closes it: scanning from position 0 ends at position 0. -/
theorem stepIter_next_txScan (e : CycleEnv) (s : ProcState)
    (s2 : ProcState) (tr : List Event)
    (h : stepIter e s = .next s2 tr) :
    txScan tr (some 0) = some 0 := by
  simp only [stepIter] at h
  repeat' split at h
  all_goals cases h
  all_goals
    by_cases h1 : s.got_sighup = true <;>
      by_cases h2 : e.sighupDuringWait = true <;>
      simp [txScan, txStep, preTxTrace, commitSeq, List.foldl_append,
        h1, h2]

/-- An exiting cycle's trace follows the transaction protocol with no
scope ever opened: scanning from position 0 ends at position 0. -/
theorem stepIter_exited_txScan (e : CycleEnv) (s : ProcState)
    (c : Nat) (tr : List Event)
    (h : stepIter e s = .exited c tr) :
    txScan tr (some 0) = some 0 := by
  simp only [stepIter] at h
  repeat' split at h
  all_goals cases h
  all_goals simp [txScan, txStep]

/-- A fatal cycle follows the transaction protocol up to the failing
query and dies there: scanning from position 0 ends at position 3, the
in-query position — the scope is open when `elog(FATAL, ...)` fires. -/
theorem stepIter_fatal_txScan (e : CycleEnv) (s : ProcState)
    (c : Int) (tr : List Event)
    (h : stepIter e s = .fatal c tr) :
    txScan tr (some 0) = some 3 := by
  simp only [stepIter] at h
  repeat' split at h
  all_goals cases h
  all_goals
    by_cases h1 : s.got_sighup = true <;>
      by_cases h2 : e.sighupDuringWait = true <;>
      simp [txScan, txStep, preTxTrace, commitSeq, List.foldl_append,
        h1, h2]

/-- C9: at most one TransactionScope exists at a time.  The trace of
every run of the loop, over arbitrary cycle environments, satisfies the
transaction protocol encoded by `txStep`: a transaction starts only
when no scope is open, the timed wait only ever happens with no scope
open (so every scope opened in an Executing phase is finished — SPI
disconnected, snapshot popped, transaction committed — before the next
Waiting phase begins, and no two Executing phases overlap), and the
scan ends closed (position 0) except for a run ended by
`elog(FATAL, ...)`, whose process dies mid-query (position 3) with no
subsequent Waiting phase. -/
theorem transaction_scope_invariant (envs : List CycleEnv)
    (s : ProcState) :
    txScan (run envs s).2 (some 0) =
      some (match (run envs s).1 with
            | RunResult.fatal _ => 3
            | _ => 0) := by
  induction envs generalizing s with
  | nil => rfl
  | cons e rest ih =>
    cases hstep : stepIter e s with
    | next s2 tr =>
      have h1 := stepIter_next_txScan e s s2 tr hstep
      have h2 : run (e :: rest) s =
          ((run rest s2).1, tr ++ (run rest s2).2) := by
        simp [run, hstep]
      have h3 : txScan (tr ++ (run rest s2).2) (some 0) =
          txScan (run rest s2).2 (txScan tr (some 0)) := by
        simp [txScan, List.foldl_append]
      rw [h2]
      simpa [h3, h1] using ih s2
    | exited c tr =>
      have h1 := stepIter_exited_txScan e s c tr hstep
      have h2 : run (e :: rest) s = (.exited c, tr) := by
        simp [run, hstep]
      rw [h2]
      simpa using h1
    | fatal c tr =>
      have h1 := stepIter_fatal_txScan e s c tr hstep
      have h2 : run (e :: rest) s = (.fatal c, tr) := by
        simp [run, hstep]
      rw [h2]
      simpa using h1

end WorkerSpark
